import Mathlib

/-!
Verification of the FactuClean processor (`src/main.py`) against its
natural-language specification.

The program is a single-file FastAPI service: it receives a Tally webhook
submission (a list of invoice-image URLs plus client email and name), calls
the Gemini model once per URL, parses each textual response as JSON, appends
the client email/name to each record, builds a single Excel table from the
accumulated records with pandas, and emails it over SMTP.

Shallow embedding choices:
* Python dicts become association lists `Rec := List (String × JVal)` with
  insertion-order semantics (`dictSet` keeps the position of an existing key,
  appends a fresh key at the end — Python 3.7+ dict behaviour).
* The two genuinely external effects — the Gemini call
  (`ai_client.models.generate_content`) and the SMTP session — plus the
  standard-library `json.loads` are abstracted into an `Env` record of
  oracles; every claim about them is conditional on the oracle's outcome,
  exactly mirroring the `try/except` structure of the source.
* `pandas.DataFrame(list_of_dicts)` is embedded by its documented semantics:
  columns are the union of keys in first-seen order, a missing key renders a
  blank (here `Option.none`) cell.  The `to_excel` byte serialisation is
  opaque; the observable result is the `Table` structure.
* Raised `HTTPException(status_code, detail)` becomes the error side of
  `Except HTTPException α`.
-/

/-- JSON-like values carried in extracted records. -/
inductive JVal where
  | jstr : String → JVal
  | jnum : Int → JVal
  deriving DecidableEq, Repr

/-- A Python dict with string keys, as an insertion-ordered association list. -/
abbrev Rec := List (String × JVal)

/-- Dict lookup (`d[k]` / `d.get(k)`): value of the first binding of `k`. -/
def dictGet (d : Rec) (k : String) : Option JVal :=
  (d.find? (fun kv => kv.1 == k)).map (·.2)

/-- Dict assignment `d[k] = v`: overwrite in place if the key exists,
otherwise append at the end (Python 3.7+ insertion-order semantics). -/
def dictSet (d : Rec) (k : String) (v : JVal) : Rec :=
  if d.any (fun kv => kv.1 == k) then
    d.map (fun kv => if kv.1 == k then (k, v) else kv)
  else
    d ++ [(k, v)]

/-- A raised FastAPI `HTTPException(status_code=..., detail=...)`. -/
structure HTTPException where
  status_code : Nat
  detail : String
  deriving DecidableEq, Repr

/-- The external effects of one request, abstracted as oracles:
the Gemini call, the standard-library JSON parser applied to the cleaned
response text, and the outcome of the SMTP connect/starttls/login/sendmail
sequence.  An `.error` value is the message of the raised Python exception. -/
structure Env where
  genContent : String → Except String String
  jsonLoads : String → Except String Rec
  smtp : Except String Unit

/-- The prompt built for a given image URL (`extract_data_with_ai`, lines
57–70; the fixed field-list paragraph is carried verbatim in spirit — no
claim depends on the prompt wording, only on the URL being embedded). -/
def promptFor (image_url : String) : String :=
  "Analyze the invoice image provided by the URL: " ++ image_url ++
  ". Extract the following data fields. Respond ONLY with a valid JSON object."

/-- Python `str.strip()` with no argument: remove leading and trailing
whitespace. -/
def pyStrip (s : String) : String :=
  ⟨((s.toList.dropWhile Char.isWhitespace).reverse.dropWhile
      Char.isWhitespace).reverse⟩

/-- Python `str.replace` over character lists: scan left to right, replacing
each non-overlapping occurrence of `pat`.  The fuel argument (instantiated
with more than the input length) only makes the recursion structural;
each step either consumes `pat.length ≥ 1` characters or one character. -/
def pyReplaceChars (pat rep : List Char) : Nat → List Char → List Char
  | 0, s => s
  | _ + 1, [] => []
  | fuel + 1, c :: rest =>
    if pat.isPrefixOf (c :: rest) then
      rep ++ pyReplaceChars pat rep fuel ((c :: rest).drop pat.length)
    else
      c :: pyReplaceChars pat rep fuel rest

/-- Python `s.replace(pat, rep)` for a nonempty `pat`. -/
def pyReplace (s pat rep : String) : String :=
  ⟨pyReplaceChars pat.toList rep.toList (s.toList.length + 1) s.toList⟩

/-- Line 78 of `src/main.py`:
`json_str = response.text.strip().replace("json", "").replace("", "")`.
`.strip()` is `pyStrip`; `.replace("json", "")` deletes every occurrence of
the substring `json`; the trailing `.replace("", "")` is the identity on
strings in Python and is therefore omitted.  Note the source contains no
backtick handling: markdown fence markers are NOT removed. -/
def clean_response (text : String) : String :=
  pyReplace (pyStrip text) "json" ""

/-- `extract_data_with_ai` (lines 50–83): build the prompt, call the model,
clean the text, `json.loads` it; any exception in the `try` block is turned
into `HTTPException(500, "Erreur dans le traitement par l\x27IA.")`. -/
def extract_data_with_ai (env : Env) (image_url : String) : Except HTTPException Rec :=
  match env.genContent (promptFor image_url) with
  | .error _ => .error ⟨500, "Erreur dans le traitement par l\x27IA."⟩
  | .ok text =>
    match env.jsonLoads (clean_response text) with
    | .error _ => .error ⟨500, "Erreur dans le traitement par l\x27IA."⟩
    | .ok d => .ok d

/-! ### Report builder (`create_excel_attachment`, lines 86–106)

`pd.DataFrame(data_list)` on a list of dicts: the columns are the union of
all keys in first-seen order, each row lists the record's value for each
column, a missing key is NaN (rendered blank); embedded as `Option.none`.
The `to_excel` serialisation to bytes is opaque; the observable content of
the produced workbook is the `Table`. -/

/-- Fold one record's keys into the accumulated column list, appending each
key not seen before (pandas first-seen column ordering). -/
def addKeysFirstSeen (cols : List String) (r : Rec) : List String :=
  r.foldl (fun acc kv => if acc.contains kv.1 then acc else acc ++ [kv.1]) cols

/-- Columns of `pd.DataFrame(rs)`: union of all keys, first-seen order. -/
def dfColumns (rs : List Rec) : List String :=
  rs.foldl addKeysFirstSeen []

/-- One row of the DataFrame: the record's value per column, `none` = blank. -/
def dfRow (cols : List String) (r : Rec) : List (Option JVal) :=
  cols.map (dictGet r)

/-- The observable content of the generated single-sheet workbook. -/
structure Table where
  cols : List String
  rows : List (List (Option JVal))
  deriving DecidableEq, Repr

/-- `create_excel_attachment` (lines 86–106): build the DataFrame and write
it to an in-memory buffer.  For a list of dicts neither `pd.DataFrame` nor
`to_excel` raises (also on the empty list, which yields an empty sheet), so
the `except` branch producing `HTTPException(500, ...)` is unreachable here;
the `Except` result type keeps the source's error channel. -/
def create_excel_attachment (data_list : List Rec) : Except HTTPException Table :=
  .ok ⟨dfColumns data_list, data_list.map (dfRow (dfColumns data_list))⟩

/-! ### Notifier (`send_email_with_attachment`, lines 109–145) -/

/-- The composed MIME message, as far as it is observable: sender, recipient,
subject, attachment filename and attached workbook (body text elided — no
claim depends on it). -/
structure EmailMsg where
  msgFrom : Option String
  msgTo : String
  subject : String
  attachmentFilename : String
  attachment : Table
  deriving DecidableEq, Repr

/-- Process-wide configuration read from the environment at startup
(lines 20–26).  `os.getenv` yields `None` for a missing variable, hence
`Option String` fields; `SMTP_PORT` has already been forced through `int`. -/
structure Config where
  GEMINI_API_KEY : Option String
  SMTP_SERVER : Option String
  SMTP_PORT : Int
  SMTP_USER : Option String
  SMTP_PASSWORD : Option String
  SENDER_EMAIL : Option String
  deriving DecidableEq, Repr

/-- `send_email_with_attachment` (lines 109–145): compose the message —
subject `f"✅ Votre analyse de facture FactuClean est prête, {client_name} !"`,
attachment filename `f"Factures_Analysees_{client_name}.xlsx"` — then run the
SMTP sequence; any exception in the `try` block becomes
`HTTPException(500, f"Échec de l\x27envoi d\x27e-mail: {e}")`.  On success the
value is the message that was handed to `sendmail`. -/
def send_email_with_attachment (env : Env) (cfg : Config)
    (recipient : String) (client_name : String) (excel_content : Table) :
    Except HTTPException EmailMsg :=
  let msg : EmailMsg :=
    { msgFrom := cfg.SENDER_EMAIL
      msgTo := recipient
      subject := "✅ Votre analyse de facture FactuClean est prête, " ++ client_name ++ " !"
      attachmentFilename := "Factures_Analysees_" ++ client_name ++ ".xlsx"
      attachment := excel_content }
  match env.smtp with
  | .error e => .error ⟨500, "Échec de l\x27envoi d\x27e-mail: " ++ e⟩
  | .ok _ => .ok msg

/-! ### Submission model and pydantic validation (`TallySubmission`, lines 38–45) -/

/-- The validated request body. -/
structure TallySubmission where
  invoice_urls : List String
  client_email : String
  client_name : String
  deriving DecidableEq, Repr

/-- A loosely-typed JSON payload value, as pydantic receives it. -/
inductive PyVal where
  | pstr : String → PyVal
  | pint : Int → PyVal
  | plist : List PyVal → PyVal
  | pnone

/-- Value of a key in the incoming JSON object. -/
def pyLookup (payload : List (String × PyVal)) (k : String) : Option PyVal :=
  (payload.find? (fun kv => kv.1 == k)).map (·.2)

/-- Pydantic validation of a `List[str]` field: the value must be an actual
list whose elements are strings.  A scalar string is NOT treated as a
sequence of characters nor coerced to a one-element list — pydantic rejects
it with `value is not a valid list`. -/
def validateStrList : PyVal → Except String (List String)
  | .plist xs =>
    xs.foldr
      (fun x acc =>
        match x, acc with
        | .pstr s, .ok ss => .ok (s :: ss)
        | .pstr _, .error e => .error e
        | _, _ => .error "str type expected")
      (.ok [])
  | _ => .error "value is not a valid list"

/-- Pydantic validation of the `EmailStr` field: a string containing an `@`
(the full RFC format check is abstracted to this; no claim depends on it). -/
def validateEmailStr : PyVal → Except String String
  | .pstr s =>
    if s.toList.contains '@' then .ok s
    else .error "value is not a valid email address"
  | _ => .error "value is not a valid email address"

/-- Pydantic validation of a plain `str` field. -/
def validateStr : PyVal → Except String String
  | .pstr s => .ok s
  | _ => .error "str type expected"

/-- Validation of the request body against `TallySubmission` (lines 38–45):
each declared field is looked up and validated; a missing field or a failed
field validation rejects the request (FastAPI then answers 422). -/
def parseTallySubmission (payload : List (String × PyVal)) :
    Except String TallySubmission :=
  match pyLookup payload "invoice_urls" with
  | none => .error "field required: invoice_urls"
  | some uv =>
    match validateStrList uv with
    | .error e => .error e
    | .ok urls =>
      match pyLookup payload "client_email" with
      | none => .error "field required: client_email"
      | some ev =>
        match validateEmailStr ev with
        | .error e => .error e
        | .ok email =>
          match pyLookup payload "client_name" with
          | none => .error "field required: client_name"
          | some nv =>
            match validateStr nv with
            | .error e => .error e
            | .ok name => .ok ⟨urls, email, name⟩

/-! ### Startup configuration (lines 18–32) -/

/-- Decimal value of a non-empty all-digit character sequence. -/
def digitsVal (ds : List Char) : Option Nat :=
  if ds.isEmpty then none
  else
    ds.foldl
      (fun acc c =>
        acc.bind (fun n => if c.isDigit then some (n * 10 + (c.toNat - 48)) else none))
      (some 0)

/-- Python `int(x)` applied to the result of `os.getenv`: `int(None)` raises
`TypeError`, a non-numeric string raises `ValueError`; surrounding
whitespace is tolerated, as is a single leading sign. -/
def pyInt : Option String → Except String Int
  | none => .error "TypeError: int() argument cannot be NoneType"
  | some s =>
    let parsed : Option Int :=
      match (pyStrip s).toList with
      | '-' :: ds => (digitsVal ds).map (fun n => -(n : Int))
      | '+' :: ds => (digitsVal ds).map (fun n => (n : Int))
      | ds => (digitsVal ds).map (fun n => (n : Int))
    match parsed with
    | some n => .ok n
    | none => .error ("ValueError: invalid literal for int() with base 10: " ++ s)

/-- Module-level startup (lines 20–32): read the six variables, force
`SMTP_PORT` through `int`, then fail with `ValueError` when
`GEMINI_API_KEY` is falsy (missing or empty).  Any `.error` here crashes
the process before the app is created. -/
def startup (getenv : String → Option String) : Except String Config :=
  let gk := getenv "GEMINI_API_KEY"
  match pyInt (getenv "SMTP_PORT") with
  | .error e => .error e
  | .ok port =>
    if gk = none ∨ gk = some "" then
      .error "ValueError: GEMINI_API_KEY non trouvé dans le fichier .env."
    else
      .ok ⟨gk, getenv "SMTP_SERVER", port, getenv "SMTP_USER",
           getenv "SMTP_PASSWORD", getenv "SENDER_EMAIL"⟩

/-! ### Request orchestrator (`process_tally_submission`, lines 150–187) -/

/-- Lines 167–168: attach the client data to one extracted record. -/
def addClientData (client_email client_name : String) (d : Rec) : Rec :=
  dictSet (dictSet d "Client_Email" (.jstr client_email)) "Client_Name" (.jstr client_name)

/-- The loop of lines 160–170, instrumented with its call trace: the first
component lists the URLs passed to `extract_data_with_ai`, in call order.
A raised `HTTPException` propagates out of the handler at once, so the loop
stops at the first failing URL. -/
def processLoop (env : Env) (client_email client_name : String) :
    List String → List String × Except HTTPException (List Rec)
  | [] => ([], .ok [])
  | url :: rest =>
    match extract_data_with_ai env url with
    | .error e => ([url], .error e)
    | .ok d =>
      let d2 := addClientData client_email client_name d
      let (tr, res) := processLoop env client_email client_name rest
      (url :: tr,
        match res with
        | .error e => .error e
        | .ok ds => .ok (d2 :: ds))

/-- The handler's observable outcome. -/
inductive ProcessResult where
  | warning : String → ProcessResult
  | success : String → ProcessResult
  | httpError : HTTPException → ProcessResult
  deriving DecidableEq, Repr

/-- Side effects of one request: the extractor call trace, whether the
report builder ran, and how many SMTP delivery attempts were made (the
source contains no retry and no queue, so this is 0 or 1). -/
structure RunLog where
  extractCalls : List String
  builderInvoked : Bool
  smtpAttempts : Nat
  deriving DecidableEq, Repr

/-- `process_tally_submission` (lines 150–187): loop over the URLs, abort on
a raised `HTTPException`; warn when the accumulated list is empty; otherwise
build the workbook once and send it once, returning the success message
`f"Traitement de {n} facture(s) terminé et envoyé à {client_email}"`. -/
def process_tally_submission (env : Env) (cfg : Config) (s : TallySubmission) :
    ProcessResult × RunLog :=
  let (tr, res) := processLoop env s.client_email s.client_name s.invoice_urls
  match res with
  | .error e => (.httpError e, ⟨tr, false, 0⟩)
  | .ok all_extracted_data =>
    if all_extracted_data.isEmpty then
      (.warning "Aucune URL de facture soumise pour le traitement.", ⟨tr, false, 0⟩)
    else
      match create_excel_attachment all_extracted_data with
      | .error e => (.httpError e, ⟨tr, true, 0⟩)
      | .ok excel_file_bytes =>
        match send_email_with_attachment env cfg s.client_email s.client_name excel_file_bytes with
        | .error e => (.httpError e, ⟨tr, true, 1⟩)
        | .ok _ =>
          (.success ("Traitement de " ++ toString all_extracted_data.length ++
            " facture(s) terminé et envoyé à " ++ s.client_email), ⟨tr, true, 1⟩)

/-! ### Specification-side column computation

The spec states the report's column headers are "the union of all field
names across all records, preserving first-seen order".  `specColumns` is
written from those words (dedup of the concatenated key sequences, keeping
the first occurrence); the refinement theorem for C3 compares it with the
embedded pandas computation `dfColumns`. -/

/-- Remove duplicates keeping the first occurrence of each element. -/
def dedupFirstSeen : List String → List String
  | [] => []
  | k :: ks => k :: dedupFirstSeen (ks.filter (fun x => x != k))
termination_by l => l.length
decreasing_by
  simp only [List.length_cons]
  exact Nat.lt_succ_of_le (List.length_filter_le _ _)

/-- Modelled from the spec: the union of all field names across all records,
preserving first-seen order. -/
def specColumns (rs : List Rec) : List String :=
  dedupFirstSeen ((rs.map (fun r => r.map Prod.fst)).flatten)

/-- The single-key step of the pandas column accumulation. -/
def addKeyStep (acc : List String) (k : String) : List String :=
  if acc.contains k then acc else acc ++ [k]

theorem addKeysFirstSeen_eq_foldl_keys (cols : List String) (r : Rec) :
    addKeysFirstSeen cols r = (r.map Prod.fst).foldl addKeyStep cols := by
  rw [List.foldl_map]
  rfl

theorem foldl_addKeyStep_eq (ks : List String) :
    ∀ acc : List String,
      ks.foldl addKeyStep acc
        = acc ++ dedupFirstSeen (ks.filter (fun k => !acc.contains k)) := by
  induction ks with
  | nil => intro acc; simp [dedupFirstSeen]
  | cons k ks ih =>
    intro acc
    cases hc : acc.contains k with
    | true =>
      rw [List.foldl_cons]
      have hstep : addKeyStep acc k = acc := by
        unfold addKeyStep; rw [hc]; rfl
      have hfc : (k :: ks).filter (fun x => !acc.contains x)
          = ks.filter (fun x => !acc.contains x) :=
        List.filter_cons_of_neg (by rw [hc]; simp)
      rw [hstep, ih acc, hfc]
    | false =>
      rw [List.foldl_cons]
      have hstep : addKeyStep acc k = acc ++ [k] := by
        unfold addKeyStep; rw [hc]; rfl
      have hfc : (k :: ks).filter (fun x => !acc.contains x)
          = k :: ks.filter (fun x => !acc.contains x) :=
        List.filter_cons_of_pos (by rw [hc]; rfl)
      have hfilter : ks.filter (fun x => !(acc ++ [k]).contains x)
          = (ks.filter (fun x => !acc.contains x)).filter (fun x => x != k) := by
        rw [List.filter_filter]
        apply List.filter_congr
        intro x _
        simp only [List.contains_eq_any_beq, List.any_append, List.any_cons,
          List.any_nil, Bool.or_false, bne]
        cases acc.any (fun b => x == b) <;> cases (x == k) <;> rfl
      rw [hstep, ih (acc ++ [k]), hfc, dedupFirstSeen, hfilter,
        List.append_assoc, List.singleton_append]

theorem dfColumns_foldl (rs : List Rec) :
    ∀ acc : List String,
      rs.foldl addKeysFirstSeen acc
        = ((rs.map (fun r => r.map Prod.fst)).flatten).foldl addKeyStep acc := by
  induction rs with
  | nil => intro acc; rfl
  | cons r rs ih =>
    intro acc
    rw [List.foldl_cons, List.map_cons, List.flatten_cons, List.foldl_append,
      addKeysFirstSeen_eq_foldl_keys, ih]

/-- Refinement: the embedded pandas column computation agrees with the
specification-side one (union of all field names, first-seen order). -/
theorem dfColumns_eq_specColumns (rs : List Rec) : dfColumns rs = specColumns rs := by
  unfold dfColumns specColumns
  rw [dfColumns_foldl rs [], foldl_addKeyStep_eq]
  rw [List.nil_append]
  congr 1
  apply List.filter_eq_self.mpr
  intro x _
  rfl

theorem mem_dedupFirstSeen (n : Nat) :
    ∀ l : List String, l.length ≤ n → ∀ x : String, x ∈ dedupFirstSeen l ↔ x ∈ l := by
  induction n with
  | zero =>
    intro l hl x
    have : l = [] := List.eq_nil_of_length_eq_zero (Nat.le_zero.mp hl)
    subst this
    simp [dedupFirstSeen]
  | succ n ih =>
    intro l hl x
    cases l with
    | nil => simp [dedupFirstSeen]
    | cons k ks =>
      rw [dedupFirstSeen]
      have hlen : (ks.filter (fun y => y != k)).length ≤ n :=
        le_trans (List.length_filter_le _ _) (Nat.lt_succ_iff.mp (lt_of_lt_of_le (Nat.lt_succ_of_le le_rfl) hl))
      constructor
      · intro hx
        rcases List.mem_cons.mp hx with h | h
        · exact h ▸ List.mem_cons_self _ _
        · have := (ih _ hlen x).mp h
          exact List.mem_cons_of_mem _ (List.mem_of_mem_filter this)
      · intro hx
        rcases List.mem_cons.mp hx with h | h
        · exact h ▸ List.mem_cons_self _ _
        · by_cases hxk : x = k
          · exact hxk ▸ List.mem_cons_self _ _
          · apply List.mem_cons_of_mem
            apply (ih _ hlen x).mpr
            apply List.mem_filter.mpr
            exact ⟨h, by simp [bne, hxk]⟩

/-! ### Dict lemmas -/

theorem dictGet_map_overwrite (k : String) (v : JVal) :
    ∀ d : Rec, d.any (fun kv => kv.1 == k) = true →
      dictGet (d.map (fun kv => if kv.1 == k then (k, v) else kv)) k = some v := by
  intro d
  induction d with
  | nil => intro h; simp at h
  | cons x d ih =>
    intro h
    cases hx : (x.1 == k) with
    | true =>
      unfold dictGet
      rw [List.map_cons, List.find?_cons]
      simp only [hx, if_pos]
      have : (k == k) = true := beq_self_eq_true k
      simp [this]
    | false =>
      have hd : d.any (fun kv => kv.1 == k) = true := by
        rw [List.any_cons, hx] at h
        simpa using h
      unfold dictGet
      rw [List.map_cons, List.find?_cons]
      simp only [hx, if_neg, Bool.false_eq_true, not_false_iff]
      exact ih hd

theorem dictGet_append_new (k : String) (v : JVal) :
    ∀ d : Rec, d.any (fun kv => kv.1 == k) = false →
      dictGet (d ++ [(k, v)]) k = some v := by
  intro d
  induction d with
  | nil =>
    intro _
    unfold dictGet
    rw [List.nil_append, List.find?_cons]
    simp [beq_self_eq_true]
  | cons x d ih =>
    intro h
    rw [List.any_cons] at h
    have hx : (x.1 == k) = false := by
      cases hxk : (x.1 == k) <;> simp [hxk] at h ⊢
    have hd : d.any (fun kv => kv.1 == k) = false := by
      cases hda : d.any (fun kv => kv.1 == k) <;> simp [hda, hx] at h ⊢
    unfold dictGet
    rw [List.cons_append, List.find?_cons]
    simp only [hx]
    exact ih hd

theorem dictGet_dictSet_self (d : Rec) (k : String) (v : JVal) :
    dictGet (dictSet d k v) k = some v := by
  unfold dictSet
  cases h : d.any (fun kv => kv.1 == k) with
  | true => rw [if_pos rfl]; exact dictGet_map_overwrite k v d h
  | false =>
    rw [if_neg (by simp)]
    exact dictGet_append_new k v d h

theorem dictGet_map_other (k k' : String) (v : JVal) (hne : (k == k') = false) :
    ∀ d : Rec,
      dictGet (d.map (fun kv => if kv.1 == k then (k, v) else kv)) k' = dictGet d k' := by
  intro d
  induction d with
  | nil => rfl
  | cons x d ih =>
    cases hx : (x.1 == k) with
    | true =>
      have hxk : x.1 = k := eq_of_beq hx
      unfold dictGet
      rw [List.map_cons, List.find?_cons, List.find?_cons]
      simp only [hx, if_pos]
      rw [show ((k, v).1 == k') = false from hne]
      rw [show (x.1 == k') = false from by rw [hxk]; exact hne]
      exact ih
    | false =>
      unfold dictGet
      rw [List.map_cons, List.find?_cons, List.find?_cons]
      simp only [hx, Bool.false_eq_true, if_neg, not_false_iff]
      cases hx' : (x.1 == k') with
      | true => rfl
      | false => exact ih

theorem dictGet_append_other (k k' : String) (v : JVal) (hne : (k == k') = false) :
    ∀ d : Rec, dictGet (d ++ [(k, v)]) k' = dictGet d k' := by
  intro d
  induction d with
  | nil =>
    unfold dictGet
    rw [List.nil_append, List.find?_cons]
    simp only [hne]
  | cons x d ih =>
    unfold dictGet
    rw [List.cons_append, List.find?_cons, List.find?_cons]
    cases hx' : (x.1 == k') with
    | true => rfl
    | false => exact ih

theorem dictGet_dictSet_other (d : Rec) (k k' : String) (v : JVal)
    (hne : (k == k') = false) :
    dictGet (dictSet d k v) k' = dictGet d k' := by
  unfold dictSet
  cases h : d.any (fun kv => kv.1 == k) with
  | true => rw [if_pos rfl]; exact dictGet_map_other k k' v hne d
  | false => rw [if_neg (by simp)]; exact dictGet_append_other k k' v hne d

theorem dictGet_addClientData_email (ce cn : String) (d : Rec) :
    dictGet (addClientData ce cn d) "Client_Email" = some (.jstr ce) := by
  unfold addClientData
  rw [dictGet_dictSet_other _ _ _ _ (by rfl), dictGet_dictSet_self]

theorem dictGet_addClientData_name (ce cn : String) (d : Rec) :
    dictGet (addClientData ce cn d) "Client_Name" = some (.jstr cn) := by
  unfold addClientData
  rw [dictGet_dictSet_self]

/-! ### Loop lemmas -/

theorem processLoop_map (env : Env) (f : String → Rec) (ce cn : String) :
    ∀ urls : List String, (∀ u ∈ urls, extract_data_with_ai env u = .ok (f u)) →
      processLoop env ce cn urls
        = (urls, .ok (urls.map (fun u => addClientData ce cn (f u)))) := by
  intro urls
  induction urls with
  | nil => intro _; rfl
  | cons url rest ih =>
    intro h
    have hu : extract_data_with_ai env url = .ok (f url) :=
      h url (List.mem_cons_self _ _)
    have hrest := ih (fun u hu' => h u (List.mem_cons_of_mem _ hu'))
    simp only [processLoop, hu, hrest, List.map_cons]

theorem processLoop_ok_shape (env : Env) (ce cn : String) :
    ∀ (urls tr : List String) (recs : List Rec),
      processLoop env ce cn urls = (tr, .ok recs) →
      tr = urls ∧ recs.length = urls.length ∧
        ∀ r ∈ recs, ∃ d, r = addClientData ce cn d := by
  intro urls
  induction urls with
  | nil =>
    intro tr recs h
    simp only [processLoop, Prod.mk.injEq] at h
    obtain ⟨h1, h2⟩ := h
    injection h2 with h2
    subst h1; subst h2
    simp
  | cons url rest ih =>
    intro tr recs h
    simp only [processLoop] at h
    cases hx : extract_data_with_ai env url with
    | error e => rw [hx] at h; simp at h
    | ok d =>
      rw [hx] at h
      cases hrest : processLoop env ce cn rest with
      | mk tr' res =>
        rw [hrest] at h
        cases res with
        | error e => simp at h
        | ok ds =>
          simp only [Prod.mk.injEq] at h
          obtain ⟨h1, h2⟩ := h
          injection h2 with h2
          obtain ⟨htr, hlen, hall⟩ := ih tr' ds hrest
          subst htr
          refine ⟨by rw [← h1], ?_, ?_⟩
          · rw [← h2]
            simp [hlen]
          · intro r hrmem
            rw [← h2] at hrmem
            rcases List.mem_cons.mp hrmem with hh | hh
            · exact ⟨d, hh⟩
            · exact hall r hh

theorem mem_dfColumns_of_dictGet (rs : List Rec) (r : Rec) (hr : r ∈ rs)
    (k : String) (v : JVal) (h : dictGet r k = some v) : k ∈ dfColumns rs := by
  rw [dfColumns_eq_specColumns]
  unfold specColumns
  rw [mem_dedupFirstSeen ((rs.map (fun r => r.map Prod.fst)).flatten).length _ le_rfl]
  rw [List.mem_flatten]
  refine ⟨r.map Prod.fst, List.mem_map_of_mem _ hr, ?_⟩
  unfold dictGet at h
  obtain ⟨kv, hfind, hv⟩ := Option.map_eq_some'.mp h
  have hmem := List.mem_of_find?_eq_some hfind
  have hpk := List.find?_some hfind
  have hk : kv.1 = k := eq_of_beq (by simpa using hpk)
  exact hk ▸ List.mem_map_of_mem Prod.fst hmem

/-! ### Concrete request environments used as test inputs -/

/-- A run in which the model answers text that is not JSON: `json.loads`
raises, with the message CPython gives for such input. -/
def envParseFail : Env :=
  ⟨fun _ => .ok "I could not read this invoice, sorry about that.",
   fun _ => .error "Expecting value: line 1 column 1 (char 0)",
   .ok ()⟩

/-- The record the model yields for every URL in the all-success runs. -/
def recF1 : Rec := [("invoice_number", .jstr "F-2024-001")]

/-- A run in which every extraction succeeds and SMTP delivery works. -/
def envOkF1 : Env :=
  ⟨fun _ => .ok "ok", fun _ => .ok recF1, .ok ()⟩

/-- A run in which every extraction succeeds but SMTP login fails. -/
def envSmtpFail : Env :=
  ⟨fun _ => .ok "ok", fun _ => .ok recF1,
   .error "SMTPAuthenticationError: 535 Authentication failed"⟩

/-- A fully populated configuration. -/
def cfg0 : Config :=
  ⟨some "test-gemini-key", some "smtp.sendgrid.net", 587, some "apikey",
   some "secret", some "noreply@factuclean.example"⟩

/-! ### Claims -/

/-- C1, counterexample.  The claim says a response that fails to parse as
JSON yields an error record (`error = "malformed AI output"`) and the
remaining URLs are still processed.  On the code, `extract_data_with_ai`
raises `HTTPException(500)` instead of returning any record, and the loop in
`process_tally_submission` stops at the first URL: the second URL is never
extracted and the batch is aborted. -/
theorem c1_counterexample :
    extract_data_with_ai envParseFail "http://inv1.png"
        = .error ⟨500, "Erreur dans le traitement par l\x27IA."⟩
    ∧ processLoop envParseFail "a@b.com" "Ana" ["http://inv1.png", "http://inv2.png"]
        = (["http://inv1.png"], .error ⟨500, "Erreur dans le traitement par l\x27IA."⟩) :=
  ⟨rfl, rfl⟩

/-- C1 (corrected).  Whenever the model call returns text whose cleaned form
fails JSON parsing, the extractor raises `HTTPException(500, "Erreur dans le
traitement par l\x27IA.")` — it does not return an error record — and the
submission loop aborts at that URL: no further URL is extracted. -/
theorem c1_malformed_json_aborts (env : Env) (url text err : String)
    (h1 : env.genContent (promptFor url) = .ok text)
    (h2 : env.jsonLoads (clean_response text) = .error err) :
    extract_data_with_ai env url = .error ⟨500, "Erreur dans le traitement par l\x27IA."⟩
    ∧ ∀ (ce cn : String) (rest : List String),
        processLoop env ce cn (url :: rest)
          = ([url], .error ⟨500, "Erreur dans le traitement par l\x27IA."⟩) := by
  have hx : extract_data_with_ai env url
      = .error ⟨500, "Erreur dans le traitement par l\x27IA."⟩ := by
    simp only [extract_data_with_ai, h1, h2]
  exact ⟨hx, fun ce cn rest => by simp only [processLoop, hx]⟩

/-- C1, witness for `c1_malformed_json_aborts` at a concrete run. -/
theorem c1_witness :
    extract_data_with_ai envParseFail "http://facture-7.png"
        = .error ⟨500, "Erreur dans le traitement par l\x27IA."⟩
    ∧ processLoop envParseFail "c@d.fr" "Luc" ["http://facture-7.png", "http://facture-8.png"]
        = (["http://facture-7.png"], .error ⟨500, "Erreur dans le traitement par l\x27IA."⟩) :=
  ⟨(c1_malformed_json_aborts envParseFail "http://facture-7.png"
      "I could not read this invoice, sorry about that."
      "Expecting value: line 1 column 1 (char 0)" rfl rfl).1,
   (c1_malformed_json_aborts envParseFail "http://facture-7.png"
      "I could not read this invoice, sorry about that."
      "Expecting value: line 1 column 1 (char 0)" rfl rfl).2
     "c@d.fr" "Luc" ["http://facture-8.png"]⟩

/-- C2, counterexample.  The claim says each resulting record contains its
source URL as a field.  In a fully successful run over one URL, the record
appended by the loop holds the extracted fields plus `Client_Email` and
`Client_Name`, and no field of it carries the source URL at all. -/
theorem c2_counterexample :
    processLoop envOkF1 "a@b.com" "Ana" ["http://inv1.png"]
      = (["http://inv1.png"],
         .ok [[("invoice_number", JVal.jstr "F-2024-001"),
               ("Client_Email", JVal.jstr "a@b.com"),
               ("Client_Name", JVal.jstr "Ana")]])
    ∧ ∀ kv ∈ ([("invoice_number", JVal.jstr "F-2024-001"),
               ("Client_Email", JVal.jstr "a@b.com"),
               ("Client_Name", JVal.jstr "Ana")] : Rec),
        kv.2 ≠ JVal.jstr "http://inv1.png" :=
  ⟨rfl, by decide⟩

/-- C2 (corrected).  For every submission whose every URL extracts
successfully, the extractor is invoked exactly once per URL, in input order
(the call trace equals the URL list), and the record sequence has one record
per URL in input order — each being the extracted record with `Client_Email`
and `Client_Name` merged in.  The source URL is not stored on the record. -/
theorem c2_order_preservation (env : Env) (f : String → Rec) (ce cn : String)
    (urls : List String)
    (h : ∀ u ∈ urls, extract_data_with_ai env u = .ok (f u)) :
    processLoop env ce cn urls
      = (urls, .ok (urls.map (fun u => addClientData ce cn (f u))))
    ∧ (urls.map (fun u => addClientData ce cn (f u))).length = urls.length :=
  ⟨processLoop_map env f ce cn urls h, by simp⟩

/-- C2, witness for `c2_order_preservation` on a two-URL submission. -/
theorem c2_witness :
    processLoop envOkF1 "a@b.com" "Ana" ["http://inv1.png", "http://inv2.png"]
      = (["http://inv1.png", "http://inv2.png"],
         .ok (["http://inv1.png", "http://inv2.png"].map
            (fun u => addClientData "a@b.com" "Ana" ((fun _ => recF1) u)))) :=
  (c2_order_preservation envOkF1 (fun _ => recF1) "a@b.com" "Ana"
    ["http://inv1.png", "http://inv2.png"] (fun _ _ => rfl)).1

/-- C3 (confirmed).  For every non-empty record sequence the produced table
has as column headers the union of all field names across all records in
first-seen order (`specColumns`, written from the spec), one row per record
in input order, and a record missing a column renders that cell blank
(`dictGet r c = none` for a key `c` absent from `r`). -/
theorem c3_union_of_columns (rs : List Rec) (_hne : rs ≠ []) :
    create_excel_attachment rs
      = .ok ⟨specColumns rs,
             rs.map (fun r => (specColumns rs).map (fun c => dictGet r c))⟩ := by
  unfold create_excel_attachment
  rw [dfColumns_eq_specColumns]
  rfl

/-- C3, witness: the spec's own example `[{"a":1},{"b":2}]` gives columns
`["a","b"]`, row 1 = `(1, blank)`, row 2 = `(blank, 2)`. -/
theorem c3_witness :
    create_excel_attachment [[("a", JVal.jnum 1)], [("b", JVal.jnum 2)]]
      = .ok ⟨["a", "b"],
             [[some (JVal.jnum 1), none], [none, some (JVal.jnum 2)]]⟩ := by
  rw [c3_union_of_columns [[("a", JVal.jnum 1)], [("b", JVal.jnum 2)]] (by simp)]
  simp [specColumns, dedupFirstSeen, dictGet]

/-- C4, counterexample.  The claim says the report builder fails with a
`ReportBuildError` on an empty record sequence.  On the code,
`pd.DataFrame([])` and `to_excel` succeed (an empty sheet), so
`create_excel_attachment []` returns an empty table, not an error. -/
theorem c4_counterexample :
    create_excel_attachment [] = .ok ⟨[], []⟩ :=
  rfl

/-- C4 (corrected).  The builder does not fail on an empty sequence (it
would produce an empty workbook); the orchestrator pre-checks the
accumulated list and short-circuits with the user-facing warning, invoking
neither the builder nor the notifier (`builderInvoked = false`,
`smtpAttempts = 0`). -/
theorem c4_empty_short_circuit (env : Env) (cfg : Config) (s : TallySubmission)
    (h : s.invoice_urls = []) :
    create_excel_attachment [] = .ok ⟨[], []⟩
    ∧ process_tally_submission env cfg s
        = (.warning "Aucune URL de facture soumise pour le traitement.",
           ⟨[], false, 0⟩) := by
  refine ⟨rfl, ?_⟩
  unfold process_tally_submission
  rw [h]
  rfl

/-- C4, witness for `c4_empty_short_circuit` on an empty submission. -/
theorem c4_witness :
    create_excel_attachment [] = .ok ⟨[], []⟩
    ∧ process_tally_submission envOkF1 cfg0 ⟨[], "a@b.com", "Ana"⟩
        = (.warning "Aucune URL de facture soumise pour le traitement.",
           ⟨[], false, 0⟩) :=
  c4_empty_short_circuit envOkF1 cfg0 ⟨[], "a@b.com", "Ana"⟩ rfl

/-- C5, counterexample.  The claim says a scalar string in the invoice-URLs
position is coerced to a one-element list and parsing succeeds.  The model
field is a plain `List[str]` with no coercion validator: pydantic rejects a
scalar string with a validation error. -/
theorem c5_counterexample :
    parseTallySubmission
        [("invoice_urls", .pstr "http://x"),
         ("client_email", .pstr "a@b.com"),
         ("client_name", .pstr "Ana")]
      = .error "value is not a valid list" :=
  rfl

/-- C5 (corrected).  A scalar string for `invoice_urls` fails validation
(the request is rejected, no coercion happens); an actual list of strings —
also a one-element one — is accepted unchanged. -/
theorem c5_scalar_rejected (s email name : String) :
    parseTallySubmission
        [("invoice_urls", .pstr s),
         ("client_email", .pstr email),
         ("client_name", .pstr name)]
      = .error "value is not a valid list"
    ∧ (email.toList.contains '@' = true →
        parseTallySubmission
            [("invoice_urls", .plist [.pstr s]),
             ("client_email", .pstr email),
             ("client_name", .pstr name)]
          = .ok ⟨[s], email, name⟩) := by
  constructor
  · rfl
  · intro h
    have h' : '@' ∈ email.data := by simpa using h
    unfold parseTallySubmission pyLookup validateStrList validateEmailStr validateStr
    simp [h']

/-- C5, witness for `c5_scalar_rejected` at a concrete payload. -/
theorem c5_witness :
    parseTallySubmission
        [("invoice_urls", .plist [.pstr "http://x"]),
         ("client_email", .pstr "a@b.com"),
         ("client_name", .pstr "Ana")]
      = .ok ⟨["http://x"], "a@b.com", "Ana"⟩ :=
  (c5_scalar_rejected "http://x" "a@b.com" "Ana").2 (by decide)

/-- C6 (confirmed).  If the records were accumulated successfully and the
SMTP session fails (authentication, connection or protocol error `e`), the
whole request fails with `HTTPException(500, "Échec de l\x27envoi
d\x27e-mail: " ++ e)` surfaced to the caller, after exactly one delivery
attempt (`smtpAttempts = 1`): no retry, and no state beyond the returned
error — the built workbook is dropped, not queued. -/
theorem c6_mail_failure_is_500 (env : Env) (cfg : Config) (s : TallySubmission)
    (tr : List String) (recs : List Rec) (e : String)
    (hloop : processLoop env s.client_email s.client_name s.invoice_urls
        = (tr, .ok recs))
    (hne : recs ≠ [])
    (hsmtp : env.smtp = .error e) :
    process_tally_submission env cfg s
      = (.httpError ⟨500, "Échec de l\x27envoi d\x27e-mail: " ++ e⟩,
         ⟨tr, true, 1⟩) := by
  unfold process_tally_submission
  rw [hloop]
  have hempty : recs.isEmpty = false := by
    cases recs with
    | nil => exact absurd rfl hne
    | cons a l => rfl
  simp only [hempty, Bool.false_eq_true, if_neg, not_false_iff,
    create_excel_attachment, send_email_with_attachment, hsmtp]

/-- C6, witness for `c6_mail_failure_is_500` on a one-invoice run whose
SMTP login fails. -/
theorem c6_witness :
    process_tally_submission envSmtpFail cfg0 ⟨["http://inv1.png"], "a@b.com", "Ana"⟩
      = (.httpError ⟨500, "Échec de l\x27envoi d\x27e-mail: SMTPAuthenticationError: 535 Authentication failed"⟩,
         ⟨["http://inv1.png"], true, 1⟩) :=
  c6_mail_failure_is_500 envSmtpFail cfg0 ⟨["http://inv1.png"], "a@b.com", "Ana"⟩
    ["http://inv1.png"] [addClientData "a@b.com" "Ana" recF1]
    "SMTPAuthenticationError: 535 Authentication failed"
    rfl (by simp [addClientData, dictSet, recF1]) rfl

/-- C7 (code bug).  The spec says the extractor strips markdown code-fence
decoration (fence markers and a leading language tag) and leaves all other
content unchanged.  Line 78 reads
`response.text.strip().replace("json", "").replace("", "")`: the fence
markers are never removed (a fenced response therefore still fails JSON
parsing), and every occurrence of the letters `json` is deleted from the
content, mangling values that contain them.  The dead no-op
`.replace("", "")` shows the fence-stripping (backticks) was lost from this
line; the spec records the evident intent. -/
theorem c7_fence_not_stripped :
    clean_response "```json\n\x7b\"invoice_number\": \"A1\"\x7d\n```"
        = "```\n\x7b\"invoice_number\": \"A1\"\x7d\n```"
    ∧ clean_response "\x7b\"supplier_name\": \"jsonCo\"\x7d"
        = "\x7b\"supplier_name\": \"Co\"\x7d" :=
  ⟨rfl, rfl⟩

/-- An environment in which every variable is set except `SMTP_PORT`. -/
def getenvNoPort : String → Option String := fun k =>
  if k = "GEMINI_API_KEY" then some "test-gemini-key"
  else if k = "SMTP_SERVER" then some "smtp.sendgrid.net"
  else if k = "SMTP_USER" then some "apikey"
  else if k = "SMTP_PASSWORD" then some "secret"
  else if k = "SENDER_EMAIL" then some "noreply@factuclean.example"
  else none

/-- An environment in which every variable is set except `GEMINI_API_KEY`. -/
def getenvNoKey : String → Option String := fun k =>
  if k = "SMTP_PORT" then some "587"
  else if k = "SMTP_SERVER" then some "smtp.sendgrid.net"
  else if k = "SMTP_USER" then some "apikey"
  else if k = "SMTP_PASSWORD" then some "secret"
  else if k = "SENDER_EMAIL" then some "noreply@factuclean.example"
  else none

/-- An environment in which every variable is set but `GEMINI_API_KEY` is
the empty string (Python `if not GEMINI_API_KEY` treats it as falsy). -/
def getenvEmptyKey : String → Option String := fun k =>
  if k = "GEMINI_API_KEY" then some ""
  else if k = "SMTP_PORT" then some "587"
  else if k = "SMTP_SERVER" then some "smtp.sendgrid.net"
  else if k = "SMTP_USER" then some "apikey"
  else if k = "SMTP_PASSWORD" then some "secret"
  else if k = "SENDER_EMAIL" then some "noreply@factuclean.example"
  else none

/-- An environment in which only `GEMINI_API_KEY` and `SMTP_PORT` are set. -/
def getenvMinimal : String → Option String := fun k =>
  if k = "GEMINI_API_KEY" then some "test-gemini-key"
  else if k = "SMTP_PORT" then some "587"
  else none

/-- C8, counterexample.  The claim says every missing configuration value
degrades to an empty string (zero for the port) without failing startup.
On the code, a missing `SMTP_PORT` crashes startup (`int(os.getenv(...))`
is `int(None)`, a `TypeError`), and a missing — or empty — `GEMINI_API_KEY`
crashes startup with an explicit `ValueError` (lines 23 and 29–30). -/
theorem c8_counterexample :
    startup getenvNoPort = .error "TypeError: int() argument cannot be NoneType"
    ∧ startup getenvNoKey
        = .error "ValueError: GEMINI_API_KEY non trouvé dans le fichier .env."
    ∧ startup getenvEmptyKey
        = .error "ValueError: GEMINI_API_KEY non trouvé dans le fichier .env." :=
  ⟨rfl, rfl, rfl⟩

/-- C8 (corrected).  Missing `SMTP_SERVER`, `SMTP_USER`, `SMTP_PASSWORD` or
`SENDER_EMAIL` degrade to absent (`None`) values without failing startup,
but a missing `SMTP_PORT` fails startup with a `TypeError` from `int(None)`,
and a missing (or empty) `GEMINI_API_KEY` fails startup with an explicit
`ValueError`. -/
theorem c8_startup_policy (getenv : String → Option String) :
    (∀ (n : Int) (key : String),
      pyInt (getenv "SMTP_PORT") = .ok n →
      getenv "GEMINI_API_KEY" = some key → key ≠ "" →
      startup getenv
        = .ok ⟨some key, getenv "SMTP_SERVER", n, getenv "SMTP_USER",
               getenv "SMTP_PASSWORD", getenv "SENDER_EMAIL"⟩)
    ∧ (getenv "SMTP_PORT" = none →
        startup getenv = .error "TypeError: int() argument cannot be NoneType")
    ∧ (∀ n : Int,
        pyInt (getenv "SMTP_PORT") = .ok n →
        (getenv "GEMINI_API_KEY" = none ∨ getenv "GEMINI_API_KEY" = some "") →
        startup getenv
          = .error "ValueError: GEMINI_API_KEY non trouvé dans le fichier .env.") := by
  refine ⟨?_, ?_, ?_⟩
  · intro n key hport hkey hkeyne
    unfold startup
    simp only [hport, hkey]
    rw [if_neg (by simp [hkeyne])]
  · intro hport
    unfold startup
    simp only [hport]
    rfl
  · intro n hport hkey
    unfold startup
    rcases hkey with hkey | hkey <;> simp only [hport, hkey] <;> simp

/-- C8, witness for `c8_startup_policy`: with only the API key and the port
set, startup succeeds and the four other values degrade to `None`; with the
key set to the empty string, startup fails with the explicit `ValueError`. -/
theorem c8_witness :
    startup getenvMinimal
      = .ok ⟨some "test-gemini-key", none, 587, none, none, none⟩
    ∧ startup getenvEmptyKey
      = .error "ValueError: GEMINI_API_KEY non trouvé dans le fichier .env." :=
  ⟨(c8_startup_policy getenvMinimal).1 587 "test-gemini-key" rfl rfl (by decide),
   (c8_startup_policy getenvEmptyKey).2.2 587 rfl (Or.inr rfl)⟩

/-- The workbook of a two-invoice run, used as the notifier's attachment. -/
def tableTwoRows : Table :=
  ⟨["a"], [[some (JVal.jnum 1)], [some (JVal.jnum 2)]]⟩

/-- C9, counterexample.  The claim says the composed subject line names the
invoice count and the attachment filename is fixed or timestamp-derived.
Sending a two-invoice workbook yields a subject that contains no digit at
all (so it cannot name the count — it names the client instead), and the
filename varies with the client name (so it is not fixed), while the code
takes no clock or timestamp input anywhere. -/
theorem c9_counterexample :
    send_email_with_attachment envOkF1 cfg0 "a@b.com" "Ana" tableTwoRows
      = .ok ⟨some "noreply@factuclean.example", "a@b.com",
             "✅ Votre analyse de facture FactuClean est prête, Ana !",
             "Factures_Analysees_Ana.xlsx", tableTwoRows⟩
    ∧ ("✅ Votre analyse de facture FactuClean est prête, Ana !".toList.all
        (fun c => !c.isDigit)) = true
    ∧ send_email_with_attachment envOkF1 cfg0 "a@b.com" "Bob" tableTwoRows
      = .ok ⟨some "noreply@factuclean.example", "a@b.com",
             "✅ Votre analyse de facture FactuClean est prête, Bob !",
             "Factures_Analysees_Bob.xlsx", tableTwoRows⟩
    ∧ "Factures_Analysees_Ana.xlsx" ≠ "Factures_Analysees_Bob.xlsx" :=
  ⟨rfl, by decide, rfl, by decide⟩

/-- C9 (corrected).  For every request that reaches the notifier, the
composed subject is the fixed French sentence naming the client — not the
invoice count — and the workbook is attached under the client-name-derived
filename `Factures_Analysees_<client_name>.xlsx`; the message goes to the
submitted recipient. -/
theorem c9_subject_and_filename (env : Env) (cfg : Config)
    (recipient client_name : String) (content : Table) (msg : EmailMsg)
    (h : send_email_with_attachment env cfg recipient client_name content = .ok msg) :
    msg.subject = "✅ Votre analyse de facture FactuClean est prête, " ++ client_name ++ " !"
    ∧ msg.attachmentFilename = "Factures_Analysees_" ++ client_name ++ ".xlsx"
    ∧ msg.msgTo = recipient := by
  unfold send_email_with_attachment at h
  cases hs : env.smtp with
  | error e =>
    rw [hs] at h
    exact absurd h (by simp)
  | ok u =>
    rw [hs] at h
    injection h with h
    subst h
    exact ⟨rfl, rfl, rfl⟩

/-- C9, witness for `c9_subject_and_filename` at a concrete send. -/
theorem c9_witness :
    "✅ Votre analyse de facture FactuClean est prête, Zoe !"
        = "✅ Votre analyse de facture FactuClean est prête, " ++ "Zoe" ++ " !"
    ∧ "Factures_Analysees_Zoe.xlsx" = "Factures_Analysees_" ++ "Zoe" ++ ".xlsx"
    ∧ "a@b.com" = "a@b.com" :=
  c9_subject_and_filename envOkF1 cfg0 "a@b.com" "Zoe" tableTwoRows
    ⟨some "noreply@factuclean.example", "a@b.com",
     "✅ Votre analyse de facture FactuClean est prête, Zoe !",
     "Factures_Analysees_Zoe.xlsx", tableTwoRows⟩ rfl

/-- C10 (confirmed).  Whatever the oracles do, every record in a
successfully accumulated list carries `Client_Email` equal to the
submission's client email and `Client_Name` equal to its client name
(lines 167–168), and when the list is non-empty both names are columns of
the generated workbook — so both columns are populated in every row. -/
theorem c10_client_fields_on_every_record (env : Env) (ce cn : String)
    (urls tr : List String) (recs : List Rec)
    (h : processLoop env ce cn urls = (tr, .ok recs)) :
    (∀ r ∈ recs,
      dictGet r "Client_Email" = some (.jstr ce)
      ∧ dictGet r "Client_Name" = some (.jstr cn))
    ∧ (recs ≠ [] →
        "Client_Email" ∈ dfColumns recs ∧ "Client_Name" ∈ dfColumns recs) := by
  obtain ⟨-, -, hall⟩ := processLoop_ok_shape env ce cn urls tr recs h
  have hfields : ∀ r ∈ recs,
      dictGet r "Client_Email" = some (JVal.jstr ce)
      ∧ dictGet r "Client_Name" = some (JVal.jstr cn) := by
    intro r hr
    obtain ⟨d, rfl⟩ := hall r hr
    exact ⟨dictGet_addClientData_email ce cn d, dictGet_addClientData_name ce cn d⟩
  refine ⟨hfields, ?_⟩
  intro hne
  cases recs with
  | nil => exact absurd rfl hne
  | cons r0 rest =>
    have h0 := hfields r0 (List.mem_cons_self _ _)
    exact ⟨mem_dfColumns_of_dictGet _ r0 (List.mem_cons_self _ _) _ _ h0.1,
           mem_dfColumns_of_dictGet _ r0 (List.mem_cons_self _ _) _ _ h0.2⟩

/-- C10, witness for `c10_client_fields_on_every_record` on a one-URL run. -/
theorem c10_witness :
    dictGet [("invoice_number", JVal.jstr "F-2024-001"),
             ("Client_Email", JVal.jstr "a@b.com"),
             ("Client_Name", JVal.jstr "Ana")] "Client_Email"
        = some (JVal.jstr "a@b.com")
    ∧ "Client_Email" ∈ dfColumns
        [[("invoice_number", JVal.jstr "F-2024-001"),
          ("Client_Email", JVal.jstr "a@b.com"),
          ("Client_Name", JVal.jstr "Ana")]] :=
  have h := c10_client_fields_on_every_record envOkF1 "a@b.com" "Ana"
    ["http://inv1.png"] ["http://inv1.png"]
    [[("invoice_number", JVal.jstr "F-2024-001"),
      ("Client_Email", JVal.jstr "a@b.com"),
      ("Client_Name", JVal.jstr "Ana")]] rfl
  ⟨(h.1 _ (List.mem_cons_self _ _)).1, (h.2 (by simp)).1⟩
